import Mathlib

/-!
# Verification of `pennylane/variable.py` (`VariableRef`)

Shallow embedding of the `VariableRef` class from `src/pennylane/variable.py`.

Modelling conventions:
* Python numbers (ints and floats) are modelled as exact rationals `ℚ`; the
  int/float display distinction and binary floating-point rounding artefacts
  are not modelled.
* Python `None` for the optional `name`/`basename` strings is `Option.none`.
* The class attributes `positional_arg_values` (an array, possibly unset/None)
  and `kwarg_values` (a dict from names to arrays, possibly unset/None) are
  modelled as an explicit `Tables` value threaded through `val`/`render`.
  The dict is an association list with unique keys, looked up with
  `List.lookup`.
* Python exceptions raised during resolution (`TypeError` from subscripting
  `None`, `KeyError` from a missing dict key, `IndexError` from an
  out-of-range sequence index, `ZeroDivisionError`) are the constructors of
  `PyError`; fallible operations return `Except PyError _`.
* Python sequence indexing supports negative indices (counting from the end);
  `pyGet` reproduces that.
-/

/-- Python exceptions that the embedded code can raise. -/
inductive PyError where
  /-- `TypeError`, e.g. subscripting `None` or an unsupported operand type. -/
  | typeError
  /-- `KeyError(k)` from a dict lookup with a missing key `k`. -/
  | keyError (k : String)
  /-- `IndexError` from an out-of-range sequence index. -/
  | indexError
  /-- `ZeroDivisionError`. -/
  | zeroDivisionError
deriving DecidableEq, Repr

/-- Python sequence indexing `xs[i]`: a negative index counts from the end;
an index out of range raises `IndexError` (here: `none`). -/
def pyGet (xs : List ℚ) (i : Int) : Option ℚ :=
  let j := if i < 0 then i + xs.length else i
  if 0 ≤ j ∧ j < xs.length then xs[j.toNat]? else none

/-- The state of `VariableRef` (instance fields), from `VariableRef.__init__`:
`idx` (int), `name` (str or None), `basename` (str or None), `mult`
(numeric scalar). -/
structure VariableRef where
  idx : Int
  name : Option String
  basename : Option String
  mult : ℚ
deriving DecidableEq, Repr

/-- `VariableRef.__init__(self, idx, name=None, basename=None)`: stores the
three identity fields unchanged (no validation of `idx`) and sets
`self.mult = 1`. -/
def VariableRef.init (idx : Int) (name basename : Option String) : VariableRef :=
  ⟨idx, name, basename, 1⟩

/-- The class-level shared value tables, both `None` until externally set:
`VariableRef.positional_arg_values` and `VariableRef.kwarg_values`. -/
structure Tables where
  positional_arg_values : Option (List ℚ)
  kwarg_values : Option (List (String × List ℚ))
deriving DecidableEq, Repr

/-- `VariableRef.is_kwarg`: `return self.basename is not None`. -/
def VariableRef.is_kwarg (r : VariableRef) : Bool :=
  r.basename.isSome

/-- `VariableRef.val`: if not `is_kwarg`, return
`positional_arg_values[idx] * mult`; otherwise look up
`kwarg_values[basename]` and return `values[idx] * mult`.
Subscripting an unset (`None`) table raises `TypeError`; a missing dict key
raises `KeyError`; an out-of-range index raises `IndexError`. -/
def VariableRef.val (r : VariableRef) (s : Tables) : Except PyError ℚ :=
  if r.is_kwarg = false then
    match s.positional_arg_values with
    | none => .error .typeError
    | some vs =>
      match pyGet vs r.idx with
      | none => .error .indexError
      | some v => .ok (v * r.mult)
  else
    match r.basename with
    | none => .error .typeError
    | some b =>
      match s.kwarg_values with
      | none => .error .typeError
      | some kvs =>
        match kvs.lookup b with
        | none => .error (.keyError b)
        | some vs =>
          match pyGet vs r.idx with
          | none => .error .indexError
          | some v => .ok (v * r.mult)

/-- `VariableRef.__neg__`: `temp = copy.copy(self); temp.mult = -temp.mult;
return temp`. Only the fresh copy's `mult` is reassigned; the receiver is
untouched (pure function of `r`). -/
def VariableRef.neg (r : VariableRef) : VariableRef :=
  { r with mult := -r.mult }

/-- `VariableRef.__mul__` (also installed as `__rmul__`): `temp =
copy.copy(self); temp.mult *= scalar; return temp`, for a numeric scalar. -/
def VariableRef.mul (r : VariableRef) (scalar : ℚ) : VariableRef :=
  { r with mult := r.mult * scalar }

/-- `VariableRef.__truediv__`: `temp = copy.copy(self); temp.mult /= scalar;
return temp`, for a numeric scalar; Python raises `ZeroDivisionError` when
the scalar is zero (before any assignment, so the receiver is untouched). -/
def VariableRef.div (r : VariableRef) (scalar : ℚ) : Except PyError VariableRef :=
  if scalar = 0 then .error .zeroDivisionError
  else .ok { r with mult := r.mult / scalar }

/-- A universe of Python objects that can stand on the right of
`VariableRef.__eq__`: numbers, strings, booleans, `None`, and `VariableRef`
instances. -/
inductive PyObj where
  | num (q : ℚ)
  | str (s : String)
  | pybool (b : Bool)
  | pynone
  | ref (r : VariableRef)
deriving DecidableEq, Repr

/-- Whether a `PyObj` is a `VariableRef` instance (`isinstance(x, VariableRef)`). -/
def PyObj.isRef : PyObj → Bool
  | .ref _ => true
  | _ => false

/-- `VariableRef.__eq__`: returns `False` for a non-`VariableRef` other;
otherwise compares `name`, `idx`, the `is_kwarg` flag and `mult`
(`basename` itself is not compared). -/
def VariableRef.pyEq (r : VariableRef) (other : PyObj) : Bool :=
  match other with
  | .ref o =>
    r.name == o.name && r.idx == o.idx && r.is_kwarg == o.is_kwarg
      && r.mult == o.mult
  | _ => false

/-- Round half to even (Python's `round` tie-breaking rule) on an exact
rational. -/
def roundHalfEven (q : ℚ) : Int :=
  let f := ⌊q⌋
  if q - f < 1 / 2 then f
  else if q - f > 1 / 2 then f + 1
  else if f % 2 = 0 then f else f + 1

/-- Python `round(q, 3)`, returned as an integer number of thousandths
(the rounded value is `pyRound3 q / 1000`). -/
def pyRound3 (q : ℚ) : Int :=
  roundHalfEven (q * 1000)

/-- Decimal digits of `n` padded with leading zeros to width 3. -/
def pad3 (n : Nat) : String :=
  if n < 10 then "00" ++ toString n
  else if n < 100 then "0" ++ toString n
  else toString n

/-- Fractional part (a number of thousandths in `0..999`) printed the way
Python's `str` prints it after a float's decimal point: trailing zeros
dropped, but at least one digit kept. -/
def fracStr (fr : Nat) : String :=
  if fr = 0 then "0"
  else if fr % 10 ≠ 0 then pad3 fr
  else if (fr / 10) % 10 ≠ 0 then
    (if fr / 10 < 10 then "0" ++ toString (fr / 10) else toString (fr / 10))
  else toString (fr / 100)

/-- Python `str` of the float `k / 1000` (`k` an integer number of
thousandths): sign, integer part, dot, fractional digits without trailing
zeros but with at least one digit. -/
def thousandthsStr (k : Int) : String :=
  (if k < 0 then "-" else "")
    ++ toString (k.natAbs / 1000) ++ "." ++ fracStr (k.natAbs % 1000)

/-- `"{}*{}".format(..., name)` renders Python `None` as `"None"`. -/
def formatName : Option String → String
  | none => "None"
  | some n => n

/-- `VariableRef.render(self, show_name_only=False)`:
without `show_name_only`, `str(round(self.val, 3))` (so resolution errors
propagate); with it, `"{}*{}".format(str(round(self.mult, 3)), self.name)`
when `mult != 1`, else `self.name` itself (which is `None` when unset,
hence the `Option String` result). -/
def VariableRef.render (r : VariableRef) (show_name_only : Bool) (s : Tables) :
    Except PyError (Option String) :=
  if show_name_only = false then
    match r.val s with
    | .error e => .error e
    | .ok v => .ok (some (thousandthsStr (pyRound3 v)))
  else if r.mult ≠ 1 then
    .ok (some (thousandthsStr (pyRound3 r.mult) ++ "*" ++ formatName r.name))
  else
    .ok r.name

/-!
## Dynamic model of Python's binary-operator dispatch

`VariableRef.__mul__` executes `temp.mult *= scalar` on whatever operand it
receives; when that operand is itself a `VariableRef`, the inner
multiplication `1 * other` dispatches through `int.__mul__` (which returns
`NotImplemented`) to `VariableRef.__rmul__ = __mul__`. To settle what
`r1 * r2`, `r1 + r2` and `scalar / r` actually do, we model the value
universe closed under this dispatch: numbers and `VariableRef` objects whose
`mult` field may itself hold any such value. -/

/-- A Python value reachable by `VariableRef` arithmetic: a number, or a
`VariableRef` object whose `mult` attribute holds another such value. -/
inductive DynVal where
  | num (q : ℚ)
  | ref (idx : Int) (name : Option String) (basename : Option String) (mult : DynVal)
deriving DecidableEq, Repr

/-- Python `x * a` where the right operand is the number `a`:
`num * num` multiplies; a ref runs `VariableRef.__mul__` (a copy whose
`mult` is `mult * a`, recursively dispatched). -/
def pyMulNum : DynVal → ℚ → Except PyError DynVal
  | .num b, a => .ok (.num (b * a))
  | .ref i n bn m, a => (pyMulNum m a).map (.ref i n bn ·)

/-- Python `x * y` on this universe. `num * num` multiplies.
`ref * z` runs `VariableRef.__mul__`: a copy of the ref whose `mult` is
`mult * z` (recursively dispatched). `num a * ref` finds `int.__mul__`
returning `NotImplemented` and falls back to `VariableRef.__rmul__`, i.e.
`__mul__` with the ref as receiver and the number `a` as right operand. -/
def pyMul : DynVal → DynVal → Except PyError DynVal
  | .num a, .num b => .ok (.num (a * b))
  | .num a, .ref i n bn m => (pyMulNum m a).map (.ref i n bn ·)
  | .ref i n bn m, z => (pyMul m z).map (.ref i n bn ·)

/-- Python `x + y` on this universe: `VariableRef` defines neither `__add__`
nor `__radd__`, so any addition involving a ref raises `TypeError`. -/
def pyAdd : DynVal → DynVal → Except PyError DynVal
  | .num a, .num b => .ok (.num (a + b))
  | _, _ => .error .typeError

/-- Python `x / y` on this universe. `num / num` divides (raising
`ZeroDivisionError` on zero). `num / ref` finds `int.__truediv__` returning
`NotImplemented` and no `__rtruediv__` on `VariableRef`, so it raises
`TypeError`. `ref / z` runs `VariableRef.__truediv__`: a copy of the ref
whose `mult` is `mult / z` (recursively dispatched). -/
def pyTruediv : DynVal → DynVal → Except PyError DynVal
  | .num a, .num b =>
    if b = 0 then .error .zeroDivisionError else .ok (.num (a / b))
  | .num _, .ref _ _ _ _ => .error .typeError
  | .ref i n bn m, z => (pyTruediv m z).map (.ref i n bn ·)

/-!
## Claims
-/

/-- The table lookup performed by `VariableRef.val` before the multiplier is
applied; a proof helper used to factor `val` through its base value. -/
def baseVal (r : VariableRef) (s : Tables) : Except PyError ℚ :=
  if r.is_kwarg = false then
    match s.positional_arg_values with
    | none => .error .typeError
    | some vs =>
      match pyGet vs r.idx with
      | none => .error .indexError
      | some v => .ok v
  else
    match r.basename with
    | none => .error .typeError
    | some b =>
      match s.kwarg_values with
      | none => .error .typeError
      | some kvs =>
        match kvs.lookup b with
        | none => .error (.keyError b)
        | some vs =>
          match pyGet vs r.idx with
          | none => .error .indexError
          | some v => .ok v

theorem val_eq_baseVal (r : VariableRef) (s : Tables) :
    r.val s = (baseVal r s).map (fun v => v * r.mult) := by
  unfold VariableRef.val baseVal
  by_cases hk : r.is_kwarg = false
  · rw [if_pos hk, if_pos hk]
    cases hp : s.positional_arg_values with
    | none => simp [Except.map]
    | some vs => cases hg : pyGet vs r.idx <;> simp [hg, Except.map]
  · rw [if_neg hk, if_neg hk]
    cases hb : r.basename with
    | none => simp [Except.map]
    | some b =>
      cases hkv : s.kwarg_values with
      | none => simp [Except.map]
      | some kvs =>
        cases hl : kvs.lookup b with
        | none => simp [hl, Except.map]
        | some vs =>
          cases hg : pyGet vs r.idx <;> simp [hl, hg, Except.map]

/-- C1: for a non-auxiliary reference whose positional table is populated and
whose index resolves to a value `v`, `val` returns `v * mult`; for an
auxiliary reference whose `basename` key is populated and whose index
resolves to `v` in that key's vector, `val` returns `v * mult`. -/
theorem claim1_val_resolution :
    (∀ (r : VariableRef) (s : Tables) (vs : List ℚ) (v : ℚ),
      r.is_kwarg = false → s.positional_arg_values = some vs →
      pyGet vs r.idx = some v → r.val s = .ok (v * r.mult)) ∧
    (∀ (r : VariableRef) (s : Tables) (b : String)
      (kvs : List (String × List ℚ)) (vs : List ℚ) (v : ℚ),
      r.basename = some b → s.kwarg_values = some kvs →
      kvs.lookup b = some vs → pyGet vs r.idx = some v →
      r.val s = .ok (v * r.mult)) := by
  constructor
  · intro r s vs v hk hp hg
    simp [VariableRef.val, hk, hp, hg]
  · intro r s b kvs vs v hb hkv hl hg
    have hk : r.is_kwarg = true := by simp [VariableRef.is_kwarg, hb]
    simp [VariableRef.val, hk, hb, hkv, hl, hg]

/-- Witness for C1: `positional_values = [2, 5]`, `index = 1`, `multiplier = 1`
resolves to `5`; with `multiplier = -2` it resolves to `-10`; with
`auxiliary_values = {x: [7, 9]}`, `basename = x`, `index = 0` resolves
to `7`. -/
theorem claim1_val_resolution_witness :
    (VariableRef.init 1 none none).val ⟨some [2, 5], none⟩ = .ok 5 ∧
    ((VariableRef.init 1 none none).mul (-2)).val ⟨some [2, 5], none⟩ = .ok (-10) ∧
    (VariableRef.init 0 none (some "x")).val ⟨none, some [("x", [7, 9])]⟩ = .ok 7 := by
  refine ⟨?_, ?_, ?_⟩
  · have h := claim1_val_resolution.1 (VariableRef.init 1 none none)
      ⟨some [2, 5], none⟩ [2, 5] 5 rfl rfl (by simp [pyGet, VariableRef.init])
    simpa [VariableRef.init] using h
  · have h := claim1_val_resolution.1 ((VariableRef.init 1 none none).mul (-2))
      ⟨some [2, 5], none⟩ [2, 5] 5 rfl rfl
      (by simp [pyGet, VariableRef.init, VariableRef.mul])
    rw [h]
    norm_num [VariableRef.init, VariableRef.mul]
  · have h := claim1_val_resolution.2 (VariableRef.init 0 none (some "x"))
      ⟨none, some [("x", [7, 9])]⟩ "x" [("x", [7, 9])] [7, 9] 7 rfl rfl
      (by simp [List.lookup]) (by simp [pyGet, VariableRef.init])
    simpa [VariableRef.init] using h

/-- C2: two references are equal iff `name`, `idx`, the `is_kwarg` flag and
`mult` all match; `basename` itself is never compared, so two auxiliary
references with different `basename` but identical `name`, `idx` and `mult`
are equal, and a positional and an auxiliary reference with otherwise
identical fields are unequal. -/
theorem claim2_eq_structure :
    (∀ r o : VariableRef, r.pyEq (.ref o) = true ↔
      (r.name = o.name ∧ r.idx = o.idx ∧ r.is_kwarg = o.is_kwarg ∧
        r.mult = o.mult)) ∧
    (∀ (i : Int) (n : Option String) (b₁ b₂ : String) (m : ℚ),
      (VariableRef.mk i n (some b₁) m).pyEq
        (.ref (VariableRef.mk i n (some b₂) m)) = true) ∧
    (∀ (i : Int) (n : Option String) (b : String) (m : ℚ),
      (VariableRef.mk i n none m).pyEq
        (.ref (VariableRef.mk i n (some b) m)) = false) := by
  refine ⟨?_, ?_, ?_⟩ <;> intros <;>
    simp [VariableRef.pyEq, VariableRef.is_kwarg, and_assoc]

/-- C3 counterexample: the constructor performs no validation, so the claim
that creation "fails immediately for every index < 0" is false: constructing
with index `-1` succeeds and returns a fully-formed reference carrying
`idx = -1` and `mult = 1`. -/
theorem claim3_counterexample :
    VariableRef.init (-1) none none = ⟨-1, none, none, 1⟩ := rfl

/-- C3 (amended): construction sets `mult = 1` and stores the given index
unchanged for every index, including negative ones; a non-negative index is
a documented caller contract, not a check performed at creation. -/
theorem claim3_init_mult_one :
    ∀ (i : Int) (n b : Option String),
      (VariableRef.init i n b).mult = 1 ∧ (VariableRef.init i n b).idx = i :=
  fun _ _ _ => ⟨rfl, rfl⟩

/-- C4: resolving an auxiliary reference whose `basename` key is absent from
the populated auxiliary table fails with the `KeyError` that names the
missing key — not a silent default value and not the `IndexError` used for
out-of-range indices. -/
theorem claim4_missing_kwarg_error :
    ∀ (r : VariableRef) (s : Tables) (b : String)
      (kvs : List (String × List ℚ)),
      r.basename = some b → s.kwarg_values = some kvs →
      kvs.lookup b = none → r.val s = .error (.keyError b) := by
  intro r s b kvs hb hkv hl
  have hk : r.is_kwarg = true := by simp [VariableRef.is_kwarg, hb]
  simp [VariableRef.val, hk, hb, hkv, hl]

/-- Witness for C4: with `auxiliary_values = {x: [7, 9]}`, a reference with
`basename = y` fails with `KeyError y`. -/
theorem claim4_missing_kwarg_error_witness :
    (VariableRef.init 0 none (some "y")).val ⟨none, some [("x", [7, 9])]⟩
      = .error (.keyError "y") :=
  claim4_missing_kwarg_error (VariableRef.init 0 none (some "y"))
    ⟨none, some [("x", [7, 9])]⟩ "y" [("x", [7, 9])] rfl rfl
    (by simp [List.lookup])

/-- C5: negation, scalar multiplication and scalar division are pure
copy-on-write operations: each returns a new reference sharing `idx`, `name`
and `basename` with the receiver and only the multiplier adjusted (the
receiver, a pure value here exactly because the Python code mutates only its
fresh `copy.copy`, is never changed); division requires a nonzero scalar,
Python raising `ZeroDivisionError` otherwise. -/
theorem claim5_arith_new_reference :
    ∀ (r : VariableRef) (a : ℚ),
      (r.neg.idx = r.idx ∧ r.neg.name = r.name ∧
        r.neg.basename = r.basename ∧ r.neg.mult = -r.mult) ∧
      ((r.mul a).idx = r.idx ∧ (r.mul a).name = r.name ∧
        (r.mul a).basename = r.basename ∧ (r.mul a).mult = r.mult * a) ∧
      (a ≠ 0 → ∃ r', r.div a = .ok r' ∧ r'.idx = r.idx ∧ r'.name = r.name ∧
        r'.basename = r.basename ∧ r'.mult = r.mult / a) := by
  intro r a
  refine ⟨⟨rfl, rfl, rfl, rfl⟩, ⟨rfl, rfl, rfl, rfl⟩, fun ha => ?_⟩
  exact ⟨{ r with mult := r.mult / a }, by simp [VariableRef.div, ha],
    rfl, rfl, rfl, rfl⟩

/-- Witness for C5: dividing a fresh reference by the nonzero scalar `2`
yields a new reference with the multiplier halved and identity shared. -/
theorem claim5_arith_new_reference_witness :
    ∃ r', (VariableRef.init 0 (some "p") none).div 2 = .ok r' ∧
      r'.idx = (VariableRef.init 0 (some "p") none).idx ∧
      r'.name = (VariableRef.init 0 (some "p") none).name ∧
      r'.basename = (VariableRef.init 0 (some "p") none).basename ∧
      r'.mult = (VariableRef.init 0 (some "p") none).mult / 2 :=
  (claim5_arith_new_reference (VariableRef.init 0 (some "p") none) 2).2.2
    (by norm_num)

/-- C6: `(r * a) * b` is value-equivalent at resolution to `r * (a * b)`:
against any value tables the two resolve to the same result (the same value
when resolution succeeds, the same error when it fails). -/
theorem claim6_mul_mul_value_equiv :
    ∀ (r : VariableRef) (a b : ℚ) (s : Tables),
      ((r.mul a).mul b).val s = (r.mul (a * b)).val s := by
  intro r a b s
  have hm : ((r.mul a).mul b).mult = (r.mul (a * b)).mult :=
    mul_assoc r.mult a b
  rw [val_eq_baseVal, val_eq_baseVal, hm]
  rfl

/-- C7 counterexample: multiplying one reference by another is NOT rejected.
`r1 * r2` runs `__mul__` on `r1`, whose `temp.mult *= r2` dispatches through
`int.__mul__` (returning `NotImplemented`) to `VariableRef.__rmul__`, so the
call returns normally: a copy of `r1` whose multiplier is a copy of `r2`. -/
theorem claim7_counterexample :
    pyMul (.ref 0 (some "p") none (.num 1)) (.ref 1 (some "q") none (.num 1))
      = .ok (.ref 0 (some "p") none (.ref 1 (some "q") none (.num 1))) := by
  norm_num [pyMul, pyMulNum, Except.map]

/-- C7 (amended): `r1 + r2` raises `TypeError` (no `__add__`/`__radd__`),
and dividing a plain scalar by a reference raises `TypeError` (no
`__rtruediv__`); but `r1 * r2` is not rejected — it silently returns a copy
of `r1` whose multiplier is a copy of `r2` (scaled by `r1`'s multiplier). -/
theorem claim7_no_ref_ref_arith :
    (∀ (i j : Int) (n₁ bn₁ n₂ bn₂ : Option String) (m₁ m₂ : DynVal),
      pyAdd (.ref i n₁ bn₁ m₁) (.ref j n₂ bn₂ m₂) = .error .typeError) ∧
    (∀ (a : ℚ) (i : Int) (n bn : Option String) (m : DynVal),
      pyTruediv (.num a) (.ref i n bn m) = .error .typeError) ∧
    (∀ (i j : Int) (n₁ bn₁ n₂ bn₂ : Option String) (q₁ q₂ : ℚ),
      pyMul (.ref i n₁ bn₁ (.num q₁)) (.ref j n₂ bn₂ (.num q₂))
        = .ok (.ref i n₁ bn₁ (.ref j n₂ bn₂ (.num (q₂ * q₁))))) := by
  refine ⟨fun _ _ _ _ _ _ _ _ => rfl, fun _ _ _ _ _ => rfl,
    fun i j n₁ bn₁ n₂ bn₂ q₁ q₂ => ?_⟩
  simp [pyMul, pyMulNum, Except.map]

/-- Spec-side reading of "its presence (non-empty/non-null)": the `basename`
field holds a string that is neither null nor empty. Stated from the spec's
words, to be compared with the code's `is_kwarg`. -/
def specBasenamePresent : Option String → Prop
  | none => False
  | some s => s ≠ ""

/-- C8 counterexample: the code tests only `basename is not None`, so a
reference built with the EMPTY string as `basename` reports
`is_kwarg = true` even though its `basename` is not "present" in the spec's
non-empty/non-null sense. -/
theorem claim8_counterexample :
    (VariableRef.init 0 none (some "")).is_kwarg = true ∧
    ¬ specBasenamePresent (VariableRef.init 0 none (some "")).basename :=
  ⟨rfl, fun h => h rfl⟩

/-- C8 (amended): `is_kwarg` returns true iff `basename` is non-null
(`is not None`); an empty-string `basename` still counts as auxiliary. The
query is a pure field test with no side effects. -/
theorem claim8_is_kwarg_iff :
    ∀ r : VariableRef, r.is_kwarg = true ↔ r.basename ≠ none := by
  intro r
  cases h : r.basename <;> simp [VariableRef.is_kwarg, h]

/-- C9: in name mode, `render` returns the bare name when the multiplier is
exactly 1, and otherwise the multiplier rounded to 3 decimal places, a `*`
marker, and the name; in value mode (the default) it returns the resolved
value rounded to 3 decimal places. -/
theorem claim9_render :
    (∀ (r : VariableRef) (s : Tables) (n : String),
      r.name = some n → r.mult = 1 → r.render true s = .ok (some n)) ∧
    (∀ (r : VariableRef) (s : Tables) (n : String),
      r.name = some n → r.mult ≠ 1 →
      r.render true s
        = .ok (some (thousandthsStr (pyRound3 r.mult) ++ "*" ++ n))) ∧
    (∀ (r : VariableRef) (s : Tables) (v : ℚ),
      r.val s = .ok v →
      r.render false s = .ok (some (thousandthsStr (pyRound3 v)))) := by
  refine ⟨?_, ?_, ?_⟩
  · intro r s n hn hm
    simp [VariableRef.render, hn, hm]
  · intro r s n hn hm
    simp [VariableRef.render, hn, hm, formatName]
  · intro r s v hv
    simp [VariableRef.render, hv]

/-- Witness for C9: `name = a, mult = 1` renders `a` in name mode;
`mult = 0.5` renders `0.5*a`; in value mode a resolved value of `3.14159`
renders `3.142`. -/
theorem claim9_render_witness :
    (VariableRef.init 0 (some "a") none).render true ⟨none, none⟩
      = .ok (some "a") ∧
    ((VariableRef.init 0 (some "a") none).mul (1 / 2)).render true ⟨none, none⟩
      = .ok (some "0.5*a") ∧
    (VariableRef.init 0 (some "a") none).render false
      ⟨some [314159 / 100000], none⟩ = .ok (some "3.142") := by
  refine ⟨claim9_render.1 _ _ _ rfl rfl, ?_, ?_⟩
  · have h := claim9_render.2.1 ((VariableRef.init 0 (some "a") none).mul (1 / 2))
      ⟨none, none⟩ "a" rfl (by norm_num [VariableRef.init, VariableRef.mul])
    rw [h]
    norm_num [VariableRef.init, VariableRef.mul, pyRound3, roundHalfEven,
      thousandthsStr, fracStr]
    rfl
  · have h := claim9_render.2.2 (VariableRef.init 0 (some "a") none)
      ⟨some [314159 / 100000], none⟩ (314159 / 100000 * 1)
      (by simp [VariableRef.val, VariableRef.init, VariableRef.is_kwarg, pyGet])
    rw [h]
    norm_num [pyRound3, roundHalfEven, thousandthsStr, fracStr, pad3]
    rfl

/-- C10: comparing a reference for equality with any non-`VariableRef` value
returns `False` (the `isinstance` guard), rather than raising. -/
theorem claim10_eq_non_ref_false :
    ∀ (r : VariableRef) (x : PyObj), x.isRef = false → r.pyEq x = false := by
  intro r x hx
  cases x <;> first
    | rfl
    | simp [PyObj.isRef] at hx

/-- Witness for C10: a reference compared with the number `3` gives `False`. -/
theorem claim10_eq_non_ref_false_witness :
    (VariableRef.init 0 (some "a") none).pyEq (.num 3) = false :=
  claim10_eq_non_ref_false (VariableRef.init 0 (some "a") none) (.num 3) rfl
